import Mathlib

/-!
Shallow embedding of the `pvm` bytecode virtual machine (src/pvm.h, src/pvm.c).

Machine integers are modelled as `Nat`/`Int` with explicit wrap-arounds where
the C arithmetic can wrap:
  * `pvm_data_t`/`pvm_const_t` (`int32_t`) values are kept in
    `[-2^31, 2^31)` via `wrap32`, applied wherever the C code performs
    `int32_t` arithmetic or stores a computed 32-bit value;
  * `pvm_data_stack_t`/`pvm_call_stack_t` (`uint8_t`) arithmetic wraps mod 256
    exactly where the C expressions are carried out in `uint8_t`
    (e.g. `returns_start = data_top - returns_size` in RET);
  * `pvm_address_t` (`uint16_t`) program-counter arithmetic wraps mod 2^16;
  * `size_t` arithmetic (image size computations) wraps mod 2^64.
The data stack and the call stack are modelled as total functions from `Nat`;
the C arrays have 30 resp. 10 slots and every in-bounds access coincides with
the model.  Image header fields are plain `Nat`s; states produced by the C code
always keep them within their C types' ranges, which theorems assume where
needed.  The table of host built-ins (out of scope of the core, see spec §6)
is a parameter: each built-in reads the argument region of the data stack and
returns the values it writes back there, per the documented interface.
-/

namespace Pvm

/-- `int32_t` wrap-around: normalise an integer into `[-2^31, 2^31)`. -/
def wrap32 (z : Int) : Int := (z + 2 ^ 31) % 2 ^ 32 - 2 ^ 31

/-- Cast an `int32_t` value to `uint32_t` (C conversion, mod 2^32). -/
def toU32 (z : Int) : Nat := (z % 2 ^ 32).toNat

/-- Two's-complement 32-bit bitwise AND (C `&` on `int32_t`). -/
def i32and (a b : Int) : Int := wrap32 ((toU32 a &&& toU32 b : Nat) : Int)

/-- Two's-complement 32-bit bitwise OR (C `|` on `int32_t`). -/
def i32or (a b : Int) : Int := wrap32 ((toU32 a ||| toU32 b : Nat) : Int)

/-- Two's-complement 32-bit bitwise XOR (C `^` on `int32_t`). -/
def i32xor (a b : Int) : Int := wrap32 ((toU32 a ^^^ toU32 b : Nat) : Int)

/-- `PVM_DATA_STACK_SIZE` (default configuration). -/
def PVM_DATA_STACK_SIZE : Nat := 30

/-- `PVM_CALL_STACK_SIZE` (default configuration). -/
def PVM_CALL_STACK_SIZE : Nat := 10

/-- `PVM_VERSION`. -/
def PVM_VERSION : Nat := 1

/-- `PVM_INTEGRAL_OP_MASK`. -/
def PVM_INTEGRAL_OP_MASK : Nat := 0x0F

/-- Function descriptor `pvm_function_t` (packed, 5 bytes). -/
structure pvm_function where
  address : Nat                -- pvm_address_t (u16)
  arguments_count : Nat        -- uint8_t
  variables_count : Nat        -- uint8_t
  returns_count : Nat          -- uint8_t : 6
  is_variadic : Bool           -- uint8_t : 1
  is_built_in : Bool           -- uint8_t : 1
  deriving DecidableEq, Inhabited

/-- Executable image `pvm_exe_t`.  `functions_count` and `constants_count`
are the lengths of the corresponding lists. -/
structure pvm_exe where
  vm_version : Nat             -- uint8_t
  size : Nat                   -- pvm_address_t (u16)
  main_variables_count : Nat   -- uint8_t
  functions : List pvm_function
  constants : List Int         -- pvm_const_t (i32) each
  code : List Nat              -- pvm_op_t (u8) each
  deriving DecidableEq, Inhabited

/-- Call-stack frame `struct pvm_call_stack`. -/
structure pvm_call_frame where
  return_address : Nat         -- pvm_address_t (u16)
  variables_start : Nat        -- pvm_data_stack_t (u8)
  arguments_count : Nat        -- pvm_data_stack_t (u8)
  function_index : Nat         -- pvm_function_index_t (u8)
  deriving DecidableEq, Inhabited

/-- VM instance `pvm_t`.  The two stacks are total functions; the C arrays
are their restrictions to `[0, 30)` resp. `[0, 10)`. -/
structure pvm_t where
  timer : Nat                  -- uint32_t
  timeout : Nat                -- uint32_t
  data_stack : Nat → Int       -- pvm_data_t[PVM_DATA_STACK_SIZE]
  call_stack : Nat → pvm_call_frame
  pc : Nat                     -- pvm_address_t (u16)
  data_top : Nat               -- pvm_data_stack_t (u8)
  call_top : Nat               -- pvm_call_stack_t (u8)
  binding : Nat                -- uint8_t, persistent
  exe : pvm_exe                -- persistent

/-- Host built-in: receives the argument region (a copy of
`data_stack[call_stack_start .. call_stack_start+args_size)`) and returns the
values it stores back starting at `call_stack_start`. -/
def pvm_builtin_f : Type := List Int → List Int

/-- Error codes `pvm_errno_t`. -/
inductive pvm_errno where
  | PVM_NO_ERROR
  | PVM_MAIN_RETURN
  | PVM_CALL_STACK_OVERFLOW
  | PVM_DATA_STACK_UNDERFLOW
  | PVM_DATA_STACK_OVERFLOW
  | PVM_ARG_OUT_OF_STACK
  | PVM_VAR_OUT_OF_STACK
  | PVM_RETURN_OUT_OF_STACK
  | PVM_DATA_STACK_SMASHED
  | PVM_PC_OVERRUN
  | PVM_EXE_NO_FUNCTION
  | PVM_BUILTIN_NO_FUNCTION
  | PVM_NO_VARIABLE
  | PVM_NO_CONSTANT
  | PVM_VARIADIC_SIZE
  deriving DecidableEq

/-- `PVM_CALL_STACK_UNDERFLOW` is aliased to `PVM_MAIN_RETURN` in the C enum. -/
def PVM_CALL_STACK_UNDERFLOW : pvm_errno := pvm_errno.PVM_MAIN_RETURN

/-- Result of `pvm_exe_check`. -/
inductive pvm_exe_check_result where
  | PVM_EXE_OK
  | PVM_EXE_SIZE
  | PVM_EXE_VERSION
  deriving DecidableEq

/-- Size in bytes of the code section, `pvm_code_size` (src/pvm.c:81-83):
`exe->size` minus the bytes taken by the function table (5 bytes per entry)
and the constant table (4 bytes per entry), computed in `size_t`. -/
def pvm_code_size (exe : pvm_exe) : Nat :=
  (((exe.size : Int) - (5 * exe.functions.length + 4 * exe.constants.length)) % 2 ^ 64).toNat

/-- `pvm_exe_check` (src/pvm.c:150-154): the size field must equal the byte
count minus all five fixed header fields
(`vm_version` 1 + `size` 2 + `functions_count` 1 + `constants_count` 1 +
`main_variables_count` 1 = 6 bytes, subtracted in `size_t`), checked before
the version. -/
def pvm_exe_check (exe : pvm_exe) (size : Nat) : pvm_exe_check_result :=
  if (exe.size : Int) ≠ ((size : Int) - 6) % 2 ^ 64 then .PVM_EXE_SIZE
  else if exe.vm_version ≠ PVM_VERSION then .PVM_EXE_VERSION
  else .PVM_EXE_OK

/-- The state produced by `pvm_reset` on a VM bound to `exe` with persistent
`binding`: every non-persistent byte zeroed, then
`data_top = exe.main_variables_count` (src/pvm.c:164-169). -/
def pvm_init (binding : Nat) (exe : pvm_exe) : pvm_t :=
  { timer := 0, timeout := 0,
    data_stack := fun _ => 0,
    call_stack := fun _ => default,
    pc := 0, data_top := exe.main_variables_count, call_top := 0,
    binding := binding, exe := exe }

/-- `pvm_reset` (src/pvm.c:164-169). -/
def pvm_reset (vm : pvm_t) : pvm_t := pvm_init vm.binding vm.exe

/-- `pvm_current_function` (src/pvm.c:93-100). -/
def pvm_current_function (vm : pvm_t) : Int :=
  if vm.call_top ≠ 0 ∧ vm.call_top ≤ PVM_CALL_STACK_SIZE then
    ((vm.call_stack (vm.call_top - 1)).function_index : Int)
  else -1

/-- `pvm_current_variables_start` (src/pvm.c:110-118). -/
def pvm_current_variables_start (vm : pvm_t) : Nat :=
  if vm.call_top ≠ 0 then (vm.call_stack (vm.call_top - 1)).variables_start else 0

/-- Pointwise update of a data stack. -/
def updStack (s : Nat → Int) (i : Nat) (v : Int) : Nat → Int :=
  fun j => if j = i then v else s j

/-- Pointwise update of a call stack. -/
def updFrame (s : Nat → pvm_call_frame) (i : Nat) (fr : pvm_call_frame) :
    Nat → pvm_call_frame :=
  fun j => if j = i then fr else s j

/-- `pvm_data_stack_push` (src/pvm.c:120-124). -/
def pvm_data_stack_push (vm : pvm_t) (v : Int) : pvm_errno × pvm_t :=
  if vm.data_top ≥ PVM_DATA_STACK_SIZE then (.PVM_DATA_STACK_OVERFLOW, vm)
  else (.PVM_NO_ERROR,
    { vm with data_stack := updStack vm.data_stack vm.data_top v,
              data_top := vm.data_top + 1 })

/-- `pvm_data_stack_pop` (src/pvm.c:126-137).  The sign-extension block is
inactive in the default 32-bit configuration (`PVM_DATA_SIGN = 0x80000000`). -/
def pvm_data_stack_pop (vm : pvm_t) : pvm_errno × pvm_t × Int :=
  if vm.data_top = 0 then (.PVM_DATA_STACK_UNDERFLOW, vm, 0)
  else (.PVM_NO_ERROR, { vm with data_top := vm.data_top - 1 },
        vm.data_stack (vm.data_top - 1))

/-- Overflowed-parameter completion (src/pvm.c:205-211): when the 4-bit
immediate is `0x0F` the parameter is popped from the stack and positive popped
values are biased by `+0x0F` (an `int32_t` addition). -/
def param_from_stack (v : Int) : Int :=
  if 0 < v then wrap32 (v + PVM_INTEGRAL_OP_MASK) else v

/-- The PWR multiplication loop (src/pvm.c:434-438): `n` remaining
`value *= v` steps on `int32_t`. -/
def pwr_loop (v : Int) (value : Int) : Nat → Int
  | 0 => value
  | n + 1 => pwr_loop v (wrap32 (value * v)) n

/-- PWR (src/pvm.c:428-439): `value` is the first pop, `second` the second
pop; result 1 when `second <= 0`, otherwise `second - 1` wrapped
multiplications of `value` by itself. -/
def pvm_pwr (value second : Int) : Int :=
  if second ≤ 0 then 1 else pwr_loop value value (second - 1).toNat

/-- DIV (src/pvm.c:446-449): C `int32_t` division truncates toward zero.
Division by zero is undefined behaviour in C; the model returns `wrap32` of
Lean's `Int.tdiv`, which yields 0 there. -/
def pvm_div (value second : Int) : Int := wrap32 (value.tdiv second)

/-- The `jump:` label (src/pvm.c:286-289): negative parameters are biased by
`-2` (`int32_t` arithmetic), then `pc += param + 1` on `uint16_t`. -/
def pvm_jump (vm : pvm_t) (param : Int) : pvm_errno × pvm_t :=
  let param := if param < 0 then wrap32 (param - 2) else param
  (.PVM_NO_ERROR, { vm with pc := (((vm.pc : Int) + param + 1) % 2 ^ 16).toNat })

/-- The POP loop (src/pvm.c:300-303): `n` pops, stopping at the first error. -/
def popN (vm : pvm_t) : Nat → pvm_errno × pvm_t
  | 0 => (.PVM_NO_ERROR, vm)
  | n + 1 =>
    match pvm_data_stack_pop vm with
    | (.PVM_NO_ERROR, vm1, _) => popN vm1 n
    | (e, vm1, _) => (e, vm1)

/-- The CAL local-variable loop (src/pvm.c:276-278): push `n` zeros,
stopping at the first error. -/
def pushZeros (vm : pvm_t) : Nat → pvm_errno × pvm_t
  | 0 => (.PVM_NO_ERROR, vm)
  | n + 1 =>
    match pvm_data_stack_push vm 0 with
    | (.PVM_NO_ERROR, vm1) => pushZeros vm1 n
    | (e, vm1) => (e, vm1)

/-- The RET copy loop (src/pvm.c:376-378): move `n` return values from
`src` down to `dst`; both indices are `uint8_t` and increment mod 256.
Returns the updated stack and the final `dst` (the new `data_top`). -/
def retCopy (s : Nat → Int) (dst src : Nat) : Nat → (Nat → Int) × Nat
  | 0 => (s, dst)
  | n + 1 => retCopy (updStack s dst (s src)) ((dst + 1) % 256) ((src + 1) % 256) n

/-- Copy of the argument region passed to a built-in
(`vm->data_stack + call_stack_start`, `args_size` entries). -/
def readRegion (s : Nat → Int) (base n : Nat) : List Int :=
  (List.range n).map fun i => s (base + i)

/-- Values stored by a built-in into the data stack starting at `base`
(each an `int32_t` store). -/
def writeList (s : Nat → Int) (base : Nat) : List Int → (Nat → Int)
  | [] => s
  | v :: rest => writeList (updStack s base (wrap32 v)) (base + 1) rest

/-- The current frame's declared locals size for LDV/STV
(src/pvm.c:214-223): `main_variables_count` in main, otherwise
`arguments_count + variables_count` of the validated current function. -/
def ldv_stack_size (vm : pvm_t) : pvm_errno × Nat :=
  if pvm_current_function vm < 0 then (.PVM_NO_ERROR, vm.exe.main_variables_count)
  else if pvm_current_function vm ≥ (vm.exe.functions.length : Int) then
    (.PVM_EXE_NO_FUNCTION, 0)
  else
    let f := vm.exe.functions.getD (pvm_current_function vm).toNat default
    (.PVM_NO_ERROR, f.arguments_count + f.variables_count)

/-- LDV/STV (src/pvm.c:213-237): bound the parameter by the current frame's
declared locals size, bias by the frame's variables start, then load (push)
or store (pop). -/
def pvm_ldv_stv (op : Nat) (vm : pvm_t) (param : Int) : pvm_errno × pvm_t :=
  match ldv_stack_size vm with
  | (.PVM_NO_ERROR, stack_size) =>
    if param < 0 ∨ param ≥ (stack_size : Int) then (.PVM_NO_VARIABLE, vm)
    else
      let idx := param.toNat + pvm_current_variables_start vm
      if idx ≥ PVM_DATA_STACK_SIZE then (.PVM_VAR_OUT_OF_STACK, vm)
      else if op &&& 0x10 ≠ 0 then
        match pvm_data_stack_pop vm with
        | (.PVM_NO_ERROR, vm1, value) =>
          (.PVM_NO_ERROR, { vm1 with data_stack := updStack vm1.data_stack idx value })
        | (e, vm1, _) => (e, vm1)
      else pvm_data_stack_push vm (vm.data_stack idx)
  | (e, _) => (e, vm)

/-- The effective argument count of a CAL (src/pvm.c:244-251): for variadic
functions the number of variadic arguments is popped from the stack and added
(in `size_t`) to the declared count, failing on negative counts or totals
above 255. -/
def cal_args (vm : pvm_t) (f : pvm_function) : pvm_errno × pvm_t × Nat :=
  if f.is_variadic then
    match pvm_data_stack_pop vm with
    | (.PVM_NO_ERROR, vm1, v) =>
      if v < 0 ∨ f.arguments_count + v.toNat > 0xFF then
        (.PVM_VARIADIC_SIZE, vm1, 0)
      else (.PVM_NO_ERROR, vm1, f.arguments_count + v.toNat)
    | (e, vm1, _) => (e, vm1, 0)
  else (.PVM_NO_ERROR, vm, f.arguments_count)

/-- CAL (src/pvm.c:239-282). -/
def pvm_cal (bts : List pvm_builtin_f) (vm : pvm_t) (param : Int) :
    pvm_errno × pvm_t :=
  if param < 0 ∨ param ≥ (vm.exe.functions.length : Int) then (.PVM_EXE_NO_FUNCTION, vm)
  else if vm.call_top ≥ PVM_CALL_STACK_SIZE then (.PVM_CALL_STACK_OVERFLOW, vm)
  else
    let f := vm.exe.functions.getD param.toNat default
    match cal_args vm f with
    | (.PVM_NO_ERROR, vm1, args_size) =>
      if vm1.data_top < args_size then (.PVM_ARG_OUT_OF_STACK, vm1)
      else
        let stack_rest := (((PVM_DATA_STACK_SIZE : Int) - vm1.data_top) % 256).toNat
        if stack_rest < f.variables_count then (.PVM_VAR_OUT_OF_STACK, vm1)
        else if stack_rest < f.returns_count then (.PVM_RETURN_OUT_OF_STACK, vm1)
        else
          let call_stack_start := vm1.data_top - args_size
          if f.is_built_in then
            if f.address ≥ bts.length then (.PVM_BUILTIN_NO_FUNCTION, vm1)
            else
              let out := (bts.getD f.address id)
                (readRegion vm1.data_stack call_stack_start args_size)
              (.PVM_NO_ERROR,
               { vm1 with data_stack := writeList vm1.data_stack call_stack_start out,
                          data_top := (call_stack_start + f.returns_count) % 256 })
          else
            let idx := vm1.call_top
            let frame0 := { vm1.call_stack idx with
                            function_index := param.toNat,
                            variables_start := call_stack_start,
                            arguments_count := args_size }
            let vm2 := { vm1 with call_stack := updFrame vm1.call_stack idx frame0,
                                  call_top := idx + 1 }
            match pushZeros vm2 f.variables_count with
            | (.PVM_NO_ERROR, vm3) =>
              (.PVM_NO_ERROR,
               { vm3 with call_stack := updFrame vm3.call_stack idx
                            { frame0 with return_address := vm3.pc },
                          pc := f.address })
            | (e, vm3) => (e, vm3)
    | (e, vm1, _) => (e, vm1)

/-- RET (src/pvm.c:361-383).  `returns_start` is computed in `uint8_t`
(mod 256); the call frame is popped before the smashed-stack check. -/
def pvm_ret (vm : pvm_t) : pvm_errno × pvm_t :=
  let function := pvm_current_function vm
  if function < 0 ∨ function ≥ (vm.exe.functions.length : Int) then (.PVM_MAIN_RETURN, vm)
  else
    let stack_start := pvm_current_variables_start vm
    let f := vm.exe.functions.getD function.toNat default
    let returns_size := f.returns_count
    let returns_start := (((vm.data_top : Int) - returns_size) % 256).toNat
    let ct := vm.call_top - 1
    let call := vm.call_stack ct
    if stack_start + call.arguments_count + f.variables_count ≠ returns_start then
      (.PVM_DATA_STACK_SMASHED, { vm with call_top := ct })
    else
      let res := retCopy vm.data_stack stack_start returns_start returns_size
      (.PVM_NO_ERROR,
       { vm with call_top := ct, data_stack := res.1, data_top := res.2,
                 pc := call.return_address })

/-- The `1011xxxx` group (src/pvm.c:295-396): NEG/INV/INC/DEC, POP,
SKZ/SNZ/SKN/SNN (no body), SLP, RET, LDC, JMB. -/
def pvm_misc (now : Nat) (op : Nat) (vm : pvm_t) : pvm_errno × pvm_t :=
  if op &&& 0x08 ≠ 0 then
    if op &&& 0x04 ≠ 0 then
      popN vm ((op &&& 3) + 1)
    else
      match pvm_data_stack_pop vm with
      | (.PVM_NO_ERROR, vm1, value) =>
        let value :=
          if op &&& 0x02 ≠ 0 then
            if op &&& 0x01 ≠ 0 then wrap32 (value - 1) else wrap32 (value + 1)
          else
            if op &&& 0x01 ≠ 0 then wrap32 (-value - 1) else wrap32 (-value)
        pvm_data_stack_push vm1 value
      | (e, vm1, _) => (e, vm1)
  else
    if op &&& 0x04 ≠ 0 then
      if op &&& 0x02 ≠ 0 then
        match pvm_data_stack_pop vm with
        | (.PVM_NO_ERROR, vm1, value) =>
          if op &&& 0x01 ≠ 0 then
            pvm_jump vm1 (wrap32 (-value))
          else
            if value < 0 ∨ value ≥ (vm1.exe.constants.length : Int) then
              (.PVM_NO_CONSTANT, vm1)
            else pvm_data_stack_push vm1 (wrap32 (vm1.exe.constants.getD value.toNat 0))
        | (e, vm1, _) => (e, vm1)
      else
        if op &&& 0x01 ≠ 0 then pvm_ret vm
        else
          match pvm_data_stack_pop vm with
          | (.PVM_NO_ERROR, vm1, value) =>
            (.PVM_NO_ERROR, { vm1 with timer := now % 2 ^ 32, timeout := toU32 value })
          | (e, vm1, _) => (e, vm1)
    else (.PVM_NO_ERROR, vm)

/-- The comparison operand of a branch opcode (src/pvm.c:474-479): the
comparison forms pop a third value and compare `second - third` (`int32_t`
subtraction); BZE/BNZ compare `second` itself. -/
def branch_operand (op : Nat) (vm : pvm_t) (second : Int) : pvm_errno × pvm_t × Int :=
  if op &&& 7 > 1 then
    match pvm_data_stack_pop vm with
    | (.PVM_NO_ERROR, vm3, third) => (.PVM_NO_ERROR, vm3, wrap32 (second - third))
    | (e, vm3, _) => (e, vm3, 0)
  else (.PVM_NO_ERROR, vm, second)

/-- The branch opcodes BZE..BLE (src/pvm.c:473-528): fetch the comparison
operand, decide the condition by the low three opcode bits, and on a taken
branch add `value + 1` to the pc (`uint16_t` arithmetic). -/
def pvm_branch (op : Nat) (vm : pvm_t) (value second : Int) : pvm_errno × pvm_t :=
  match branch_operand op vm second with
  | (.PVM_NO_ERROR, vm3, sec) =>
    let branch : Bool :=
      if op &&& 0x04 ≠ 0 then
        if op &&& 0x02 ≠ 0 then
          if op &&& 0x01 ≠ 0 then decide (sec ≤ 0) else decide (sec ≥ 0)
        else
          if op &&& 0x01 ≠ 0 then decide (sec < 0) else decide (sec > 0)
      else
        if op &&& 0x01 ≠ 0 then decide (sec ≠ 0) else decide (sec = 0)
    if branch then
      (.PVM_NO_ERROR, { vm3 with pc := (((vm3.pc : Int) + value + 1) % 2 ^ 16).toNat })
    else (.PVM_NO_ERROR, vm3)
  | (e, vm3, _) => (e, vm3)

/-- The value pushed by the arithmetic/logic opcodes of the `1010 1sss`
subgroup (src/pvm.c:403-470): `value` is the first pop, `second` the second
pop; ADD/SUB/MUL/DIV compute `value OP second` in `int32_t`. -/
def binary_op_value (op : Nat) (value second : Int) : Int :=
  if op &&& 0x04 ≠ 0 then
    if op &&& 0x02 ≠ 0 then
      if op &&& 0x01 ≠ 0 then i32xor value second else i32or value second
    else
      if op &&& 0x01 ≠ 0 then i32and value second else pvm_pwr value second
  else
    if op &&& 0x02 ≠ 0 then
      if op &&& 0x01 ≠ 0 then pvm_div value second else wrap32 (value * second)
    else
      if op &&& 0x01 ≠ 0 then wrap32 (value - second) else wrap32 (value + second)

/-- The `1010ssss` group (src/pvm.c:398-529): two pops (`value` first,
`second` second), then either an arithmetic/logic push or a branch. -/
def pvm_binary (op : Nat) (vm : pvm_t) : pvm_errno × pvm_t :=
  match pvm_data_stack_pop vm with
  | (.PVM_NO_ERROR, vm1, value) =>
    match pvm_data_stack_pop vm1 with
    | (.PVM_NO_ERROR, vm2, second) =>
      if op &&& 0x08 ≠ 0 then
        pvm_data_stack_push vm2 (binary_op_value op value second)
      else pvm_branch op vm2 value second
    | (e, vm2, _) => (e, vm2)
  | (e, vm1, _) => (e, vm1)

/-- PSC (src/pvm.c:531-538): pop, shift left by 5 (on `int32_t`), OR in the
5-bit immediate, push. -/
def pvm_psc (op : Nat) (vm : pvm_t) : pvm_errno × pvm_t :=
  match pvm_data_stack_pop vm with
  | (.PVM_NO_ERROR, vm1, value) =>
    pvm_data_stack_push vm1 (i32or (wrap32 (value * 32)) ((op &&& 0x1F : Nat) : Int))
  | (e, vm1, _) => (e, vm1)

/-- Parameter extraction for the `11xxxxxx` group (src/pvm.c:201-212):
the 4-bit immediate, or — when it is the sentinel `0x0F` — a value popped
from the stack and completed by `param_from_stack`. -/
def resolve_param (op : Nat) (vm : pvm_t) : pvm_errno × pvm_t × Int :=
  if op &&& PVM_INTEGRAL_OP_MASK = PVM_INTEGRAL_OP_MASK then
    match pvm_data_stack_pop vm with
    | (.PVM_NO_ERROR, vm1, v) => (.PVM_NO_ERROR, vm1, param_from_stack v)
    | (e, vm1, _) => (e, vm1, 0)
  else (.PVM_NO_ERROR, vm, ((op &&& PVM_INTEGRAL_OP_MASK : Nat) : Int))

/-- The `11xxxxxx` group (src/pvm.c:200-291): extract the 4-bit parameter
(possibly from the stack), then LDV/STV, CAL or JMP. -/
def pvm_op_param (bts : List pvm_builtin_f) (op : Nat) (vm : pvm_t) :
    pvm_errno × pvm_t :=
  match resolve_param op vm with
  | (.PVM_NO_ERROR, vm1, param) =>
    if op &&& 0x20 ≠ 0 then pvm_ldv_stv op vm1 param
    else if op &&& 0x10 ≠ 0 then pvm_cal bts vm1 param
    else pvm_jump vm1 param
  | (e, vm1, _) => (e, vm1)

/-- The opcode dispatch tree of `pvm_op` (src/pvm.c:200-547), applied to the
already-fetched opcode with the pc already incremented. -/
def pvm_dispatch (bts : List pvm_builtin_f) (now : Nat) (op : Nat) (vm : pvm_t) :
    pvm_errno × pvm_t :=
  if op &&& 0x80 ≠ 0 then
    if op &&& 0x40 ≠ 0 then pvm_op_param bts op vm
    else if op &&& 0x20 ≠ 0 then
      if op &&& 0x10 ≠ 0 then pvm_misc now op vm
      else pvm_binary op vm
    else pvm_psc op vm
  else pvm_data_stack_push vm ((op &&& 0x7F : Nat) : Int)

/-- One `pvm_op` step (src/pvm.c:180-552).  `now` is the value `now_ms()`
returns during this step (reduced mod 2^32 as a `uint32_t`). -/
def pvm_op (bts : List pvm_builtin_f) (now : Nat) (vm : pvm_t) : pvm_errno × pvm_t :=
  if vm.timer ≠ 0 ∧ (now % 2 ^ 32 + 2 ^ 32 - vm.timer) % 2 ^ 32 < vm.timeout then
    (.PVM_NO_ERROR, vm)
  else
    let vm := if vm.timer ≠ 0 then { vm with timer := 0 } else vm
    if vm.pc ≥ pvm_code_size vm.exe then (.PVM_PC_OVERRUN, vm)
    else
      let op := vm.exe.code.getD vm.pc 0
      pvm_dispatch bts now op { vm with pc := (vm.pc + 1) % 2 ^ 16 }

/-- `n` repeated `pvm_op` steps (the host's step loop) with a fixed clock
reading, keeping only the final state. -/
def pvm_run (bts : List pvm_builtin_f) (now : Nat) (vm : pvm_t) : Nat → pvm_t
  | 0 => vm
  | n + 1 => pvm_run bts now (pvm_op bts now vm).2 n

/-- States reachable from `pvm_reset` of a VM bound to `exe` by repeated
`pvm_op` steps with arbitrary clock readings. -/
inductive pvm_reachable (bts : List pvm_builtin_f) (exe : pvm_exe) : pvm_t → Prop where
  | init (b : Nat) : pvm_reachable bts exe (pvm_init b exe)
  | step (vm : pvm_t) (now : Nat) :
      pvm_reachable bts exe vm → pvm_reachable bts exe (pvm_op bts now vm).2

/-- Well-formedness of one call frame: its locals window starts within the
data stack and its function's declared locals/returns fit the capacity.
Established by CAL's checks. -/
def FrameOK (exe : pvm_exe) (fr : pvm_call_frame) : Prop :=
  fr.variables_start + fr.arguments_count ≤ PVM_DATA_STACK_SIZE ∧
  (exe.functions.getD fr.function_index default).variables_count ≤ PVM_DATA_STACK_SIZE ∧
  (exe.functions.getD fr.function_index default).returns_count ≤ PVM_DATA_STACK_SIZE

/-- The inductive state invariant: both stack tops within capacity and every
live call frame well-formed. -/
def pvm_inv (vm : pvm_t) : Prop :=
  vm.data_top ≤ PVM_DATA_STACK_SIZE ∧ vm.call_top ≤ PVM_CALL_STACK_SIZE ∧
  ∀ i, i < vm.call_top → FrameOK vm.exe (vm.call_stack i)

instance (vm : pvm_t) : Decidable (pvm_inv vm) := by
  unfold pvm_inv FrameOK; infer_instance

/-- The post-state common to the arithmetic opcodes ADD..PWR, AND, IOR, XOR:
after the two pops the result is pushed onto the remaining stack (the pc has
already advanced past the opcode). -/
def binary_result (vm : pvm_t) (r : Int) : pvm_errno × pvm_t :=
  pvm_data_stack_push
    { vm with pc := (vm.pc + 1) % 2 ^ 16, data_top := vm.data_top - 1 - 1 } r

/-! ### Concrete images and states used as test inputs -/

/-- `05 07 A8`: PSH 5; PSH 7; ADD. -/
def exe_add : pvm_exe :=
  { vm_version := 1, size := 3, main_variables_count := 0,
    functions := [], constants := [], code := [0x05, 0x07, 0xA8] }

/-- `05 07 A9`: PSH 5; PSH 7; SUB. -/
def exe_sub : pvm_exe :=
  { vm_version := 1, size := 3, main_variables_count := 0,
    functions := [], constants := [], code := [0x05, 0x07, 0xA9] }

/-- `00 00 A0`: PSH 0; PSH 0; BZE (spec scenario 3). -/
def exe_bze : pvm_exe :=
  { vm_version := 1, size := 3, main_variables_count := 0,
    functions := [], constants := [], code := [0x00, 0x00, 0xA0] }

/-- `B0`: a single SKZ. -/
def exe_skz : pvm_exe :=
  { vm_version := 1, size := 1, main_variables_count := 0,
    functions := [], constants := [], code := [0xB0] }

/-- `B0` with `main_variables_count = 31`, one more than the data stack
capacity; its `size` field (1) matches a byte length of 7. -/
def exe_skz31 : pvm_exe :=
  { vm_version := 1, size := 1, main_variables_count := 31,
    functions := [], constants := [], code := [0xB0] }

/-- `00`: a single PSH 0. -/
def exe_psh0 : pvm_exe :=
  { vm_version := 1, size := 1, main_variables_count := 0,
    functions := [], constants := [], code := [0x00] }

/-- `0A B4`: PSH 10; SLP (spec scenario 6). -/
def exe_slp : pvm_exe :=
  { vm_version := 1, size := 2, main_variables_count := 0,
    functions := [], constants := [], code := [0x0A, 0xB4] }

/-- The VM state sleeping after `PSH 10; SLP` was executed with the clock
reading `t1`: `timer = t1 mod 2^32`, `timeout = 10`, `pc = 2` (the end of the
code), the pushed 10 already popped again. -/
def slp_sleeping (t1 : Nat) : pvm_t :=
  { timer := t1 % 2 ^ 32, timeout := 10,
    data_stack := updStack (fun _ => 0) 0 10,
    call_stack := fun _ => default,
    pc := 2, data_top := 0, call_top := 0, binding := 0, exe := exe_slp }

/-- The VM state after the first step (PSH 10) of `exe_slp`. -/
def slp_after_psh : pvm_t :=
  { timer := 0, timeout := 0,
    data_stack := updStack (fun _ => 0) 0 10,
    call_stack := fun _ => default,
    pc := 1, data_top := 1, call_top := 0, binding := 0, exe := exe_slp }

/-- `00 07 AB`: PSH 0; PSH 7; DIV — the divisor (second pop) is 0. -/
def exe_div : pvm_exe :=
  { vm_version := 1, size := 3, main_variables_count := 0,
    functions := [], constants := [], code := [0x00, 0x07, 0xAB] }

/-- A host built-in that stores its arguments back unchanged. -/
def builtin_id : pvm_builtin_f := fun args => args

/-- A built-in function descriptor with no arguments and no returns. -/
def fn_bi0 : pvm_function :=
  { address := 0, arguments_count := 0, variables_count := 0,
    returns_count := 0, is_variadic := false, is_built_in := true }

/-- `D0`: a single CAL 0 to the built-in `fn_bi0`. -/
def exe_cal_bi : pvm_exe :=
  { vm_version := 1, size := 6, main_variables_count := 0,
    functions := [fn_bi0], constants := [], code := [0xD0] }

/-- A VM bound to `exe_cal_bi` whose call stack is already full. -/
def vm_cal_full : pvm_t := { pvm_init 0 exe_cal_bi with call_top := 10 }

/-- A built-in function descriptor taking one argument and returning one
value. -/
def fn_bi1 : pvm_function :=
  { address := 0, arguments_count := 1, variables_count := 0,
    returns_count := 1, is_variadic := false, is_built_in := true }

/-- `07 D0`: PSH 7; CAL 0 to the built-in `fn_bi1`. -/
def exe_cal_bi2 : pvm_exe :=
  { vm_version := 1, size := 7, main_variables_count := 0,
    functions := [fn_bi1], constants := [], code := [0x07, 0xD0] }

/-- The state after the PSH 7 of `exe_cal_bi2`: the CAL 0 is next. -/
def cal_bi_state : pvm_t := (pvm_op [builtin_id] 0 (pvm_init 0 exe_cal_bi2)).2

/-- A bytecode function descriptor with no arguments, variables or returns. -/
def fn_ret0 : pvm_function :=
  { address := 0, arguments_count := 0, variables_count := 0,
    returns_count := 0, is_variadic := false, is_built_in := false }

/-- `B5`: a single RET, with `fn_ret0` as function 0. -/
def exe_ret : pvm_exe :=
  { vm_version := 1, size := 6, main_variables_count := 0,
    functions := [fn_ret0], constants := [], code := [0xB5] }

/-- A VM about to execute the RET of `exe_ret` inside one call frame of
`fn_ret0` whose return address is 7. -/
def vm_ret : pvm_t :=
  { pvm_init 0 exe_ret with
    call_top := 1,
    call_stack := updFrame (fun _ => default) 0
      { return_address := 7, variables_start := 0, arguments_count := 0,
        function_index := 0 } }

/-! ### Arithmetic lemmas about the 32-bit wrap -/

theorem wrap32_bounds (z : Int) : -2 ^ 31 ≤ wrap32 z ∧ wrap32 z < 2 ^ 31 := by
  unfold wrap32; omega

theorem wrap32_eq_self {z : Int} (h1 : -2 ^ 31 ≤ z) (h2 : z < 2 ^ 31) : wrap32 z = z := by
  unfold wrap32; omega

theorem wrap32_congr {a b : Int} (h : a % 2 ^ 32 = b % 2 ^ 32) : wrap32 a = wrap32 b := by
  unfold wrap32; omega

theorem wrap32_mod (a : Int) : wrap32 a % 2 ^ 32 = a % 2 ^ 32 := by
  unfold wrap32; omega

theorem wrap32_mul_left (x y : Int) : wrap32 (wrap32 x * y) = wrap32 (x * y) :=
  wrap32_congr (Int.ModEq.mul_right y (wrap32_mod x))

theorem pwr_loop_eq (v : Int) {x : Int} (hx1 : -2 ^ 31 ≤ x) (hx2 : x < 2 ^ 31) (n : Nat) :
    pwr_loop v x n = wrap32 (x * v ^ n) := by
  induction n generalizing x with
  | zero => simpa [pwr_loop] using (wrap32_eq_self hx1 hx2).symm
  | succ n ih =>
    show pwr_loop v (wrap32 (x * v)) n = _
    rw [ih (wrap32_bounds _).1 (wrap32_bounds _).2, wrap32_mul_left, pow_succ]
    ring_nf

/-- PWR's result for a positive exponent is the wrapped power of the first
popped value, the exponent being the second popped value. -/
theorem pvm_pwr_eq {a : Int} (ha1 : -2 ^ 31 ≤ a) (ha2 : a < 2 ^ 31) {b : Int} (hb : 1 ≤ b) :
    pvm_pwr a b = wrap32 (a ^ b.toNat) := by
  unfold pvm_pwr
  rw [if_neg (by omega), pwr_loop_eq a ha1 ha2]
  congr 1
  rw [← pow_succ']
  congr 1
  omega

/-! ### Evaluation lemmas for the step function -/

theorem pop_eq (vm : pvm_t) (h : vm.data_top ≠ 0) :
    pvm_data_stack_pop vm =
      (.PVM_NO_ERROR, { vm with data_top := vm.data_top - 1 },
       vm.data_stack (vm.data_top - 1)) := by
  unfold pvm_data_stack_pop; rw [if_neg h]

theorem push_eq (vm : pvm_t) (v : Int) (h : vm.data_top < 30) :
    pvm_data_stack_push vm v =
      (.PVM_NO_ERROR,
       { vm with data_stack := updStack vm.data_stack vm.data_top v,
                 data_top := vm.data_top + 1 }) := by
  unfold pvm_data_stack_push PVM_DATA_STACK_SIZE
  rw [if_neg (by omega)]

/-- When no sleep is pending and the pc is in range, a step fetches the
opcode, increments the pc and dispatches. -/
theorem pvm_op_exec (bts : List pvm_builtin_f) (now : Nat) (vm : pvm_t)
    (ht : vm.timer = 0) (hpc : vm.pc < pvm_code_size vm.exe) :
    pvm_op bts now vm =
      pvm_dispatch bts now (vm.exe.code.getD vm.pc 0)
        { vm with pc := (vm.pc + 1) % 2 ^ 16 } := by
  unfold pvm_op
  rw [if_neg (by simp [ht])]
  simp only [ht, ne_eq, not_true_eq_false, if_false]
  rw [if_neg (by omega)]

/-! ### Preservation of the state invariant by every step -/

theorem inv_pop (vm : pvm_t) (h : pvm_inv vm) : pvm_inv (pvm_data_stack_pop vm).2.1 := by
  unfold pvm_data_stack_pop
  split
  · exact h
  · exact ⟨le_trans (Nat.sub_le _ _) h.1, h.2.1, h.2.2⟩

theorem inv_push (vm : pvm_t) (v : Int) (h : pvm_inv vm) :
    pvm_inv (pvm_data_stack_push vm v).2 := by
  unfold pvm_data_stack_push
  split
  · exact h
  · rename_i hlt
    unfold PVM_DATA_STACK_SIZE at hlt
    exact ⟨by show vm.data_top + 1 ≤ 30; omega, h.2.1, h.2.2⟩

theorem inv_popN (vm : pvm_t) (n : Nat) (h : pvm_inv vm) : pvm_inv (popN vm n).2 := by
  induction n generalizing vm with
  | zero => exact h
  | succ n ih =>
    unfold popN
    split
    · rename_i vm1 _ heq
      apply ih
      have := inv_pop vm h
      rw [heq] at this
      exact this
    · rename_i e vm1 _ _ heq
      have := inv_pop vm h
      rw [heq] at this
      exact this

theorem inv_pushZeros (vm : pvm_t) (n : Nat) (h : pvm_inv vm) :
    pvm_inv (pushZeros vm n).2 := by
  induction n generalizing vm with
  | zero => exact h
  | succ n ih =>
    unfold pushZeros
    split
    · rename_i vm1 heq
      apply ih
      have := inv_push vm 0 h
      rw [heq] at this
      exact this
    · rename_i e vm1 _ heq
      have := inv_push vm 0 h
      rw [heq] at this
      exact this

theorem inv_jump (vm : pvm_t) (param : Int) (h : pvm_inv vm) :
    pvm_inv (pvm_jump vm param).2 := h

theorem inv_psc (op : Nat) (vm : pvm_t) (h : pvm_inv vm) : pvm_inv (pvm_psc op vm).2 := by
  unfold pvm_psc
  split
  · rename_i vm1 value heq
    apply inv_push
    have := inv_pop vm h
    rw [heq] at this
    exact this
  · rename_i e vm1 _ _ heq
    have := inv_pop vm h
    rw [heq] at this
    exact this

theorem retCopy_snd (s : Nat → Int) (dst src n : Nat) (h : dst + n < 256) :
    (retCopy s dst src n).2 = dst + n := by
  induction n generalizing s dst src with
  | zero => rfl
  | succ n ih =>
    unfold retCopy
    rw [Nat.mod_eq_of_lt (show dst + 1 < 256 by omega), ih _ _ _ (by omega)]
    omega

/-- When the call stack is non-empty and within capacity,
`pvm_current_function` is the top frame's function index. -/
theorem current_function_eq (vm : pvm_t) (hct0 : vm.call_top ≠ 0)
    (hct : vm.call_top ≤ 10) :
    pvm_current_function vm =
      ((vm.call_stack (vm.call_top - 1)).function_index : Int) := by
  unfold pvm_current_function
  rw [if_pos ⟨hct0, hct⟩]

theorem current_variables_start_eq (vm : pvm_t) (hct0 : vm.call_top ≠ 0) :
    pvm_current_variables_start vm =
      (vm.call_stack (vm.call_top - 1)).variables_start := by
  unfold pvm_current_variables_start
  rw [if_pos hct0]

theorem inv_ret (vm : pvm_t) (h : pvm_inv vm) : pvm_inv (pvm_ret vm).2 := by
  obtain ⟨hdt, hct, hfr⟩ := h
  unfold PVM_DATA_STACK_SIZE at hdt
  unfold PVM_CALL_STACK_SIZE at hct
  simp only [pvm_ret]
  split
  · exact ⟨hdt, hct, hfr⟩
  · rename_i hfun
    have hct0 : vm.call_top ≠ 0 := by
      intro h0
      exact hfun (Or.inl (by simp [pvm_current_function, h0]))
    obtain ⟨hvs, hvars, hrets⟩ := hfr (vm.call_top - 1) (by omega)
    unfold PVM_DATA_STACK_SIZE at hvs hvars hrets
    rw [current_function_eq vm hct0 hct, current_variables_start_eq vm hct0]
    simp only [Int.toNat_natCast]
    split
    · refine ⟨hdt, ?_, ?_⟩
      · show vm.call_top - 1 ≤ PVM_CALL_STACK_SIZE
        unfold PVM_CALL_STACK_SIZE
        omega
      · intro i hi
        refine hfr i ?_
        have hk : i < vm.call_top - 1 := hi
        omega
    · rename_i hne
      rw [ne_eq, not_not] at hne
      refine ⟨?_, ?_, ?_⟩
      · show (retCopy vm.data_stack _ _ _).2 ≤ PVM_DATA_STACK_SIZE
        rw [retCopy_snd _ _ _ _ (by omega)]
        unfold PVM_DATA_STACK_SIZE
        omega
      · show vm.call_top - 1 ≤ PVM_CALL_STACK_SIZE
        unfold PVM_CALL_STACK_SIZE
        omega
      · intro i hi
        refine hfr i ?_
        have hk : i < vm.call_top - 1 := hi
        omega

theorem pop_split (vm : pvm_t) :
    pvm_data_stack_pop vm = (.PVM_DATA_STACK_UNDERFLOW, vm, 0) ∨
    pvm_data_stack_pop vm =
      (.PVM_NO_ERROR, { vm with data_top := vm.data_top - 1 },
       vm.data_stack (vm.data_top - 1)) := by
  unfold pvm_data_stack_pop
  split
  · exact Or.inl rfl
  · exact Or.inr rfl

theorem push_split (vm : pvm_t) (v : Int) :
    pvm_data_stack_push vm v = (.PVM_DATA_STACK_OVERFLOW, vm) ∨
    pvm_data_stack_push vm v =
      (.PVM_NO_ERROR,
       { vm with data_stack := updStack vm.data_stack vm.data_top v,
                 data_top := vm.data_top + 1 }) := by
  unfold pvm_data_stack_push
  split
  · exact Or.inl rfl
  · exact Or.inr rfl

theorem inv_dec (vm : pvm_t) (h : pvm_inv vm) :
    pvm_inv { vm with data_top := vm.data_top - 1 } :=
  ⟨le_trans (Nat.sub_le _ _) h.1, h.2.1, h.2.2⟩

theorem inv_of_state_cases {vm vm1 : pvm_t} (h : pvm_inv vm)
    (hc : vm1 = vm ∨ vm1 = { vm with data_top := vm.data_top - 1 }) : pvm_inv vm1 := by
  rcases hc with rfl | rfl
  · exact h
  · exact inv_dec vm h

theorem resolve_param_state (op : Nat) (vm : pvm_t) :
    (resolve_param op vm).2.1 = vm ∨
    (resolve_param op vm).2.1 = { vm with data_top := vm.data_top - 1 } := by
  unfold resolve_param
  split
  · rcases pop_split vm with hp | hp
    · simp [hp]
    · simp [hp]
  · exact Or.inl rfl

theorem cal_args_state (vm : pvm_t) (f : pvm_function) :
    ((cal_args vm f).2.1 = vm ∨
     (cal_args vm f).2.1 = { vm with data_top := vm.data_top - 1 }) ∧
    (cal_args vm f).2.1.call_top = vm.call_top ∧
    (cal_args vm f).2.1.call_stack = vm.call_stack ∧
    (cal_args vm f).2.1.exe = vm.exe ∧
    (cal_args vm f).2.1.data_top ≤ vm.data_top := by
  unfold cal_args
  split
  · rcases pop_split vm with hp | hp
    · simp [hp]
    · simp only [hp]
      split
      · simp
      · simp
  · exact ⟨Or.inl rfl, rfl, rfl, rfl, le_refl _⟩

theorem branch_operand_split (op : Nat) (vm : pvm_t) (second : Int) :
    branch_operand op vm second = (.PVM_NO_ERROR, vm, second) ∨
    branch_operand op vm second = (.PVM_DATA_STACK_UNDERFLOW, vm, 0) ∨
    branch_operand op vm second =
      (.PVM_NO_ERROR, { vm with data_top := vm.data_top - 1 },
       wrap32 (second - vm.data_stack (vm.data_top - 1))) := by
  unfold branch_operand
  split
  · rcases pop_split vm with hp | hp
    · simp [hp]
    · simp [hp]
  · exact Or.inl rfl

theorem pushZeros_persist (vm : pvm_t) (n : Nat) :
    (pushZeros vm n).2.call_stack = vm.call_stack ∧
    (pushZeros vm n).2.call_top = vm.call_top ∧
    (pushZeros vm n).2.exe = vm.exe ∧
    (pushZeros vm n).2.pc = vm.pc := by
  induction n generalizing vm with
  | zero => exact ⟨rfl, rfl, rfl, rfl⟩
  | succ n ih =>
    unfold pushZeros
    rcases push_split vm 0 with hp | hp
    · simp [hp]
    · simp only [hp]
      exact ih _

theorem inv_misc (now op : Nat) (vm : pvm_t) (h : pvm_inv vm) :
    pvm_inv (pvm_misc now op vm).2 := by
  unfold pvm_misc
  split
  · split
    · exact inv_popN vm _ h
    · rcases pop_split vm with hp | hp <;> simp only [hp]
      · exact h
      · exact inv_push _ _ (inv_dec vm h)
  · split
    · split
      · rcases pop_split vm with hp | hp <;> simp only [hp]
        · exact h
        · split
          · exact inv_jump _ _ (inv_dec vm h)
          · split
            · exact inv_dec vm h
            · exact inv_push _ _ (inv_dec vm h)
      · split
        · exact inv_ret vm h
        · rcases pop_split vm with hp | hp <;> simp only [hp]
          · exact h
          · exact inv_dec vm h
    · exact h

theorem inv_branch (op : Nat) (vm : pvm_t) (value second : Int) (h : pvm_inv vm) :
    pvm_inv (pvm_branch op vm value second).2 := by
  unfold pvm_branch
  rcases branch_operand_split op vm second with hb | hb | hb <;> simp only [hb] <;>
    repeat' split
  all_goals first
    | exact h
    | exact inv_dec _ h

theorem inv_binary (op : Nat) (vm : pvm_t) (h : pvm_inv vm) :
    pvm_inv (pvm_binary op vm).2 := by
  unfold pvm_binary
  rcases pop_split vm with hp | hp <;> simp only [hp]
  · exact h
  · rcases pop_split { vm with data_top := vm.data_top - 1 } with hp2 | hp2 <;>
      simp only [hp2]
    · exact inv_dec vm h
    · split
      · exact inv_push _ _ (inv_dec _ (inv_dec vm h))
      · exact inv_branch _ _ _ _ (inv_dec _ (inv_dec vm h))

theorem ldv_stack_size_split (vm : pvm_t) :
    (∃ n, ldv_stack_size vm = (.PVM_NO_ERROR, n)) ∨
    ldv_stack_size vm = (.PVM_EXE_NO_FUNCTION, 0) := by
  unfold ldv_stack_size
  split
  · exact Or.inl ⟨_, rfl⟩
  · split
    · exact Or.inr rfl
    · exact Or.inl ⟨_, rfl⟩

theorem inv_ldv_stv (op : Nat) (vm : pvm_t) (param : Int) (h : pvm_inv vm) :
    pvm_inv (pvm_ldv_stv op vm param).2 := by
  unfold pvm_ldv_stv
  rcases ldv_stack_size_split vm with ⟨n, heq⟩ | heq <;> simp only [heq]
  · split
    · exact h
    · split
      · exact h
      · split
        · rcases pop_split vm with hp | hp <;> simp only [hp]
          · exact h
          · exact inv_dec vm h
        · exact inv_push _ _ h
  · exact h

theorem inv_cal (bts : List pvm_builtin_f) (vm : pvm_t) (param : Int) (h : pvm_inv vm) :
    pvm_inv (pvm_cal bts vm param).2 := by
  simp only [pvm_cal]
  split
  · exact h
  · rename_i hidx
    split
    · exact h
    · rename_i hct
      unfold PVM_CALL_STACK_SIZE at hct
      split
      · rename_i vm1 args heq
        have hcs := cal_args_state vm (vm.exe.functions.getD param.toNat default)
        rw [heq] at hcs
        simp only at hcs
        obtain ⟨hst, hct1, hcs1, hexe1, hdt1⟩ := hcs
        have h1 : pvm_inv vm1 := inv_of_state_cases h hst
        have hdt30 : vm1.data_top ≤ 30 := h1.1
        split
        · exact h1
        · rename_i harg
          rw [not_lt] at harg
          split
          · exact h1
          · rename_i hvars
            rw [not_lt] at hvars
            split
            · exact h1
            · rename_i hrets
              rw [not_lt] at hrets
              unfold PVM_DATA_STACK_SIZE at hvars hrets
              have hsr : ((((30 : Nat) : Int) - (vm1.data_top : Int)) % 256).toNat =
                  30 - vm1.data_top := by omega
              rw [hsr] at hvars hrets
              split
              · split
                · exact h1
                · refine ⟨?_, h1.2.1, h1.2.2⟩
                  show (vm1.data_top - args +
                      (vm.exe.functions.getD param.toNat default).returns_count) % 256 ≤
                    PVM_DATA_STACK_SIZE
                  unfold PVM_DATA_STACK_SIZE
                  omega
              · -- bytecode call: push a frame, then the local-variable zeros
                have h2 : pvm_inv
                    { vm1 with
                      call_stack := updFrame vm1.call_stack vm1.call_top
                        { vm1.call_stack vm1.call_top with
                          function_index := param.toNat,
                          variables_start := vm1.data_top - args,
                          arguments_count := args },
                      call_top := vm1.call_top + 1 } := by
                  refine ⟨hdt30, ?_, ?_⟩
                  · show vm1.call_top + 1 ≤ PVM_CALL_STACK_SIZE
                    unfold PVM_CALL_STACK_SIZE
                    omega
                  · intro i hi
                    have hi' : i < vm1.call_top + 1 := hi
                    show FrameOK vm1.exe (updFrame vm1.call_stack vm1.call_top _ i)
                    unfold updFrame
                    by_cases hii : i = vm1.call_top
                    · rw [if_pos hii]
                      refine ⟨?_, ?_, ?_⟩
                      · show vm1.data_top - args + args ≤ PVM_DATA_STACK_SIZE
                        unfold PVM_DATA_STACK_SIZE
                        omega
                      · show (vm1.exe.functions.getD param.toNat
                            default).variables_count ≤ PVM_DATA_STACK_SIZE
                        unfold PVM_DATA_STACK_SIZE
                        rw [hexe1]
                        omega
                      · show (vm1.exe.functions.getD param.toNat
                            default).returns_count ≤ PVM_DATA_STACK_SIZE
                        unfold PVM_DATA_STACK_SIZE
                        rw [hexe1]
                        omega
                    · rw [if_neg hii]
                      rw [hcs1, hexe1]
                      exact h.2.2 i (by omega)
                split
                · rename_i vm3 heq3
                  have h3 := inv_pushZeros _
                    (vm.exe.functions.getD param.toNat default).variables_count h2
                  rw [heq3] at h3
                  have hp3 := pushZeros_persist
                    { vm1 with
                      call_stack := updFrame vm1.call_stack vm1.call_top
                        { vm1.call_stack vm1.call_top with
                          function_index := param.toNat,
                          variables_start := vm1.data_top - args,
                          arguments_count := args },
                      call_top := vm1.call_top + 1 }
                    (vm.exe.functions.getD param.toNat default).variables_count
                  rw [heq3] at hp3
                  obtain ⟨hp3s, hp3t, hp3e, _⟩ := hp3
                  simp only at hp3s hp3t hp3e
                  refine ⟨h3.1, h3.2.1, ?_⟩
                  intro i hi
                  have hi' : i < vm3.call_top := hi
                  show FrameOK vm3.exe (updFrame vm3.call_stack vm1.call_top _ i)
                  unfold updFrame
                  by_cases hii : i = vm1.call_top
                  · rw [if_pos hii]
                    refine ⟨?_, ?_, ?_⟩
                    · show vm1.data_top - args + args ≤ PVM_DATA_STACK_SIZE
                      unfold PVM_DATA_STACK_SIZE
                      omega
                    · show (vm3.exe.functions.getD param.toNat
                          default).variables_count ≤ PVM_DATA_STACK_SIZE
                      rw [hp3e, hexe1]
                      unfold PVM_DATA_STACK_SIZE
                      omega
                    · show (vm3.exe.functions.getD param.toNat
                          default).returns_count ≤ PVM_DATA_STACK_SIZE
                      rw [hp3e, hexe1]
                      unfold PVM_DATA_STACK_SIZE
                      omega
                  · rw [if_neg hii]
                    exact h3.2.2 i hi'
                · rename_i e vm3 _ heq3
                  have h3 := inv_pushZeros _
                    (vm.exe.functions.getD param.toNat default).variables_count h2
                  rw [heq3] at h3
                  exact h3
      · rename_i e vm1 _ _ heq
        have hcs := cal_args_state vm (vm.exe.functions.getD param.toNat default)
        rw [heq] at hcs
        simp only at hcs
        exact inv_of_state_cases h hcs.1

theorem inv_op_param (bts : List pvm_builtin_f) (op : Nat) (vm : pvm_t)
    (h : pvm_inv vm) : pvm_inv (pvm_op_param bts op vm).2 := by
  unfold pvm_op_param
  split
  · rename_i vm1 param heq
    have hst := resolve_param_state op vm
    rw [heq] at hst
    simp only at hst
    have h1 : pvm_inv vm1 := inv_of_state_cases h hst
    split
    · exact inv_ldv_stv op vm1 param h1
    · split
      · exact inv_cal bts vm1 param h1
      · exact inv_jump vm1 param h1
  · rename_i heq
    have hst := resolve_param_state op vm
    rw [heq] at hst
    simp only at hst
    exact inv_of_state_cases h hst

theorem inv_dispatch (bts : List pvm_builtin_f) (now op : Nat) (vm : pvm_t)
    (h : pvm_inv vm) : pvm_inv (pvm_dispatch bts now op vm).2 := by
  unfold pvm_dispatch
  split
  · split
    · exact inv_op_param bts op vm h
    · split
      · split
        · exact inv_misc now op vm h
        · exact inv_binary op vm h
      · exact inv_psc op vm h
  · exact inv_push _ _ h

theorem inv_op (bts : List pvm_builtin_f) (now : Nat) (vm : pvm_t) (h : pvm_inv vm) :
    pvm_inv (pvm_op bts now vm).2 := by
  simp only [pvm_op]
  split
  · exact h
  · split <;> split
    all_goals first
      | exact h
      | exact inv_dispatch bts now _ _ h

theorem inv_init (b : Nat) (exe : pvm_exe) (h : exe.main_variables_count ≤ 30) :
    pvm_inv (pvm_init b exe) :=
  ⟨h, Nat.zero_le _, fun i hi => absurd hi (Nat.not_lt_zero i)⟩

/-- Every state reachable from reset of an image whose main-variable count
fits the data stack satisfies the invariant. -/
theorem inv_reachable (bts : List pvm_builtin_f) (exe : pvm_exe)
    (h : exe.main_variables_count ≤ 30) (vm : pvm_t)
    (hr : pvm_reachable bts exe vm) : pvm_inv vm := by
  induction hr with
  | init b => exact inv_init b exe h
  | step vm now _ ih => exact inv_op bts now vm ih

theorem dispatch_binary (bts : List pvm_builtin_f) (now op : Nat) (vm : pvm_t)
    (h1 : op &&& 0x80 ≠ 0) (h2 : op &&& 0x40 = 0) (h3 : op &&& 0x20 ≠ 0)
    (h4 : op &&& 0x10 = 0) :
    pvm_dispatch bts now op vm = pvm_binary op vm := by
  unfold pvm_dispatch
  rw [if_pos h1, if_neg (by simp [h2]), if_pos h3, if_neg (by simp [h4])]

theorem pvm_binary_arith_eq (op : Nat) (vm : pvm_t) (h0 : vm.data_top ≠ 0)
    (h1 : vm.data_top - 1 ≠ 0) (h8 : op &&& 0x08 ≠ 0) :
    pvm_binary op vm =
      pvm_data_stack_push { vm with data_top := vm.data_top - 1 - 1 }
        (binary_op_value op (vm.data_stack (vm.data_top - 1))
          (vm.data_stack (vm.data_top - 1 - 1))) := by
  unfold pvm_binary
  simp only [pop_eq vm h0]
  simp only [pop_eq { vm with data_top := vm.data_top - 1 } h1]
  rw [if_pos h8]

/-! ### Claim theorems -/

/-- Claim C1 (counterexample): `pvm_exe_check` does not implement the
`len - 3` rule: an image whose size field (7) equals the byte length (10)
minus `sizeof(vm_version) + sizeof(size)` (3) is still rejected with
`PVM_EXE_SIZE`, because the code also subtracts the three count fields. -/
theorem exe_check_len_minus_3_fails :
    pvm_exe_check
        { vm_version := 1, size := 7, main_variables_count := 0,
          functions := [], constants := [], code := [] } 10 =
      .PVM_EXE_SIZE ∧ (7 : Int) = (10 : Int) - 3 := by
  decide

/-- Claim C1 (amended): `pvm_exe_check` returns `PVM_EXE_SIZE` exactly when
the size field differs from the byte length minus the whole 6-byte fixed
header (`vm_version` + `size` + `functions_count` + `constants_count` +
`main_variables_count`, subtracted in `size_t`); when the size matches it
returns `PVM_EXE_VERSION` iff the version differs from `PVM_VERSION` and
`PVM_EXE_OK` otherwise, the size check being performed first. -/
theorem exe_check_spec (exe : pvm_exe) (len : Nat) :
    (pvm_exe_check exe len = .PVM_EXE_SIZE ↔
       (exe.size : Int) ≠ ((len : Int) - 6) % 2 ^ 64) ∧
    (pvm_exe_check exe len = .PVM_EXE_VERSION ↔
       (exe.size : Int) = ((len : Int) - 6) % 2 ^ 64 ∧ exe.vm_version ≠ PVM_VERSION) ∧
    (pvm_exe_check exe len = .PVM_EXE_OK ↔
       (exe.size : Int) = ((len : Int) - 6) % 2 ^ 64 ∧ exe.vm_version = PVM_VERSION) := by
  unfold pvm_exe_check
  split
  · rename_i hs
    exact ⟨iff_of_true rfl hs, iff_of_false (by decide) fun hh => hs hh.1,
           iff_of_false (by decide) fun hh => hs hh.1⟩
  · rename_i hs
    rw [not_ne_iff] at hs
    split
    · rename_i hv
      exact ⟨iff_of_false (by decide) fun hh => hh hs, iff_of_true rfl ⟨hs, hv⟩,
             iff_of_false (by decide) fun hh => hv hh.2⟩
    · rename_i hv
      rw [not_ne_iff] at hv
      exact ⟨iff_of_false (by decide) fun hh => hh hs,
             iff_of_false (by decide) fun hh => hh.2 hv,
             iff_of_true rfl ⟨hs, hv⟩⟩

/-- Claim C3 (counterexample): no popped `int32_t` value yields the
stack-form parameter 15: positive popped values are biased to at least 16
(or wrap around), zero and negative values pass through unchanged. -/
theorem param_from_stack_never_15 :
    ¬ ∃ v : Int, -2 ^ 31 ≤ v ∧ v < 2 ^ 31 ∧ param_from_stack v = 15 := by
  rintro ⟨v, h1, h2, h3⟩
  unfold param_from_stack PVM_INTEGRAL_OP_MASK wrap32 at h3
  split at h3 <;> omega

/-- Claim C3 (amended): with the low nibble `0x0F` the parameter is popped
from the stack; a positive popped value `v` yields `v + 0x0F` (when the
`int32_t` addition does not overflow), zero and negative popped values pass
through unchanged; hence parameter 15 itself is unobtainable from the stack
form, while every in-range parameter `p ≥ 16` and every `p ≤ 0` is
obtainable. -/
theorem param_from_stack_spec :
    (∀ v : Int, 0 < v → v + 15 < 2 ^ 31 → param_from_stack v = v + 15) ∧
    (∀ v : Int, v ≤ 0 → param_from_stack v = v) ∧
    (∀ v : Int, -2 ^ 31 ≤ v → v < 2 ^ 31 → param_from_stack v ≠ 15) ∧
    (∀ p : Int, 16 ≤ p → p < 2 ^ 31 → param_from_stack (p - 15) = p) ∧
    (∀ p : Int, p ≤ 0 → param_from_stack p = p) := by
  refine ⟨?_, ?_, ?_, ?_, ?_⟩ <;>
    intro v h1 <;>
    first
      | (intro h2
         unfold param_from_stack PVM_INTEGRAL_OP_MASK wrap32
         split <;> omega)
      | (unfold param_from_stack PVM_INTEGRAL_OP_MASK wrap32
         split <;> omega)

/-- Claim C3 (witness): the stack values 1 and -3 resolve to the parameters
16 and -3. -/
theorem param_from_stack_spec_witness :
    param_from_stack 1 = 1 + 15 ∧ param_from_stack (-3) = -3 :=
  ⟨param_from_stack_spec.1 1 (by norm_num) (by norm_num),
   param_from_stack_spec.2.1 (-3) (by norm_num)⟩

/-- Claim C5 (counterexample): with code `00 00 A0` and
`main_variables_count = 0`, the pc after the three steps is not 3; the taken
BZE branch adds `disp + 1` to a pc that was already advanced past the
opcode, so it does not land on the byte immediately after BZE. -/
theorem bze_zero_disp_pc_ne_3 :
    (pvm_run [] 0 (pvm_init 0 exe_bze) 3).pc ≠ 3 := by
  decide

/-- Claim C5 (amended): with code `00 00 A0`, the third step pops disp = 0
and cond = 0 and takes the branch: `pc += 0 + 1` is applied after the fetch
already advanced the pc to 3, so the three steps all return `PVM_NO_ERROR`
and leave `pc = 4` — one byte past the byte following the BZE opcode. -/
theorem bze_zero_disp_pc_eq_4 :
    (pvm_op [] 0 (pvm_init 0 exe_bze)).1 = .PVM_NO_ERROR ∧
    (pvm_op [] 0 (pvm_op [] 0 (pvm_init 0 exe_bze)).2).1 = .PVM_NO_ERROR ∧
    (pvm_op [] 0 (pvm_op [] 0 (pvm_op [] 0 (pvm_init 0 exe_bze)).2).2).1 =
      .PVM_NO_ERROR ∧
    (pvm_run [] 0 (pvm_init 0 exe_bze) 3).pc = 4 := by
  decide

/-- Claim C6 (counterexample): `exe_skz31` is accepted by check
(size 1 = 7 - 6, version 1) but declares 31 main variables; reset is
reachable and sets `data_top = 31`, and the first step (SKZ) returns
`PVM_NO_ERROR` leaving `data_top = 31 > DATA_STACK_CAP`. -/
theorem caps_claim_counterexample :
    pvm_reachable [] exe_skz31 (pvm_init 0 exe_skz31) ∧
    pvm_exe_check exe_skz31 7 = .PVM_EXE_OK ∧
    (pvm_op [] 0 (pvm_init 0 exe_skz31)).1 = .PVM_NO_ERROR ∧
    ¬ (pvm_op [] 0 (pvm_init 0 exe_skz31)).2.data_top ≤ PVM_DATA_STACK_SIZE :=
  ⟨pvm_reachable.init 0, by decide, by decide, by decide⟩

/-- Claim C6 (amended): for every image accepted by check whose
`main_variables_count` does not exceed the data stack capacity, every state
reachable from reset keeps `data_top ≤ DATA_STACK_CAP` and
`call_top ≤ CALL_STACK_CAP` after every step — in particular after every
step that returns `PVM_NO_ERROR`. -/
theorem step_preserves_caps (bts : List pvm_builtin_f) (exe : pvm_exe) (len : Nat)
    (hchk : pvm_exe_check exe len = .PVM_EXE_OK)
    (hmv : exe.main_variables_count ≤ PVM_DATA_STACK_SIZE)
    (vm : pvm_t) (hr : pvm_reachable bts exe vm) (now : Nat)
    (hok : (pvm_op bts now vm).1 = .PVM_NO_ERROR) :
    (pvm_op bts now vm).2.data_top ≤ PVM_DATA_STACK_SIZE ∧
    (pvm_op bts now vm).2.call_top ≤ PVM_CALL_STACK_SIZE := by
  have h := inv_op bts now vm (inv_reachable bts exe hmv vm hr)
  exact ⟨h.1, h.2.1⟩

/-- Claim C6 (witness): one step of `PSH 0` from reset of the accepted image
`exe_psh0` keeps both tops within capacity. -/
theorem step_preserves_caps_witness :
    (pvm_op [] 0 (pvm_init 0 exe_psh0)).2.data_top ≤ PVM_DATA_STACK_SIZE ∧
    (pvm_op [] 0 (pvm_init 0 exe_psh0)).2.call_top ≤ PVM_CALL_STACK_SIZE :=
  step_preserves_caps [] exe_psh0 7 (by decide) (by decide) _
    (pvm_reachable.init 0) 0 (by decide)

/-- Claim C8 (counterexample): with a monotonic clock that reads 0 at the
SLP step, both steps of `0A B4` succeed but `timer` is left 0 — the sleep is
silently not entered, contradicting `timer != 0` for every monotonic
clock. -/
theorem slp_zero_clock_counterexample :
    (pvm_op [] 0 (pvm_init 0 exe_slp)).1 = .PVM_NO_ERROR ∧
    (pvm_op [] 0 (pvm_op [] 0 (pvm_init 0 exe_slp)).2).1 = .PVM_NO_ERROR ∧
    (pvm_op [] 0 (pvm_op [] 0 (pvm_init 0 exe_slp)).2).2.timer = 0 := by
  decide

/-- Claim C8 (amended): for the program `0A B4` and any clock readings `t0`
(first step) and `t1` (SLP step) with `t1 mod 2^32 ≠ 0`: both steps succeed
and leave the sleeping state with `timer = t1 mod 2^32 ≠ 0`, `timeout = 10`;
every later step whose reading `t` satisfies `(t - timer) mod 2^32 < 10`
returns `PVM_NO_ERROR` with the state unchanged; and the first step at or
after the elapse clears `timer` and resumes execution (which here
immediately reports `PVM_PC_OVERRUN`, the pc being at the end of the code
and unchanged). -/
theorem slp_spec (t0 t1 : Nat) (h1 : t1 % 2 ^ 32 ≠ 0) :
    (pvm_op [] t0 (pvm_init 0 exe_slp)).1 = .PVM_NO_ERROR ∧
    (pvm_op [] t1 (pvm_op [] t0 (pvm_init 0 exe_slp)).2).1 = .PVM_NO_ERROR ∧
    (pvm_op [] t1 (pvm_op [] t0 (pvm_init 0 exe_slp)).2).2 = slp_sleeping t1 ∧
    (slp_sleeping t1).timer = t1 % 2 ^ 32 ∧
    (slp_sleeping t1).timer ≠ 0 ∧ (slp_sleeping t1).timeout = 10 ∧
    (∀ t : Nat, (t % 2 ^ 32 + 2 ^ 32 - t1 % 2 ^ 32) % 2 ^ 32 < 10 →
       pvm_op [] t (slp_sleeping t1) = (.PVM_NO_ERROR, slp_sleeping t1)) ∧
    (∀ t : Nat, ¬ (t % 2 ^ 32 + 2 ^ 32 - t1 % 2 ^ 32) % 2 ^ 32 < 10 →
       (pvm_op [] t (slp_sleeping t1)).2.timer = 0 ∧
       (pvm_op [] t (slp_sleeping t1)).1 = .PVM_PC_OVERRUN ∧
       (pvm_op [] t (slp_sleeping t1)).2.pc = (slp_sleeping t1).pc) := by
  have e1 : pvm_op [] t0 (pvm_init 0 exe_slp) = (.PVM_NO_ERROR, slp_after_psh) := by
    rw [pvm_op_exec [] t0 (pvm_init 0 exe_slp) rfl (by decide)]
    with_unfolding_all rfl
  have e2 : pvm_op [] t1 slp_after_psh = (.PVM_NO_ERROR, slp_sleeping t1) := by
    rw [pvm_op_exec [] t1 slp_after_psh rfl (by decide)]
    with_unfolding_all rfl
  refine ⟨?_, ?_, ?_, rfl, h1, rfl, ?_, ?_⟩
  · simp [e1]
  · simp [e1, e2]
  · simp [e1, e2]
  · intro t ht
    unfold pvm_op
    rw [if_pos ⟨h1, ht⟩]
  · intro t ht
    unfold pvm_op
    simp only [slp_sleeping]
    rw [if_neg (fun hc => ht hc.2), if_pos h1]
    refine ⟨?_, ?_, ?_⟩ <;> with_unfolding_all rfl

/-- Claim C8 (witness): with readings 3 then 5, the VM sleeps with
`timer = 5`; a step at 9 changes nothing, a step at 20 clears the timer. -/
theorem slp_spec_witness :
    (pvm_op [] 5 (pvm_op [] 3 (pvm_init 0 exe_slp)).2).2 = slp_sleeping 5 ∧
    pvm_op [] 9 (slp_sleeping 5) = (.PVM_NO_ERROR, slp_sleeping 5) ∧
    (pvm_op [] 20 (slp_sleeping 5)).2.timer = 0 := by
  have h := slp_spec 3 5 (by decide)
  exact ⟨h.2.2.1, h.2.2.2.2.2.2.1 9 (by decide),
         (h.2.2.2.2.2.2.2 20 (by decide)).1⟩

/-- Claim C9: the opcodes SKZ (`B0`), SNZ (`B1`), SKN (`B2`) and SNN (`B3`)
execute as no-ops: when no sleep is pending and the pc is in range, the step
returns `PVM_NO_ERROR` and the only state change is the pc moving past the
opcode byte. -/
theorem skz_family_noop (bts : List pvm_builtin_f) (now : Nat) (vm : pvm_t)
    (ht : vm.timer = 0) (hpc : vm.pc < pvm_code_size vm.exe)
    (hop : vm.exe.code.getD vm.pc 0 = 0xB0 ∨ vm.exe.code.getD vm.pc 0 = 0xB1 ∨
           vm.exe.code.getD vm.pc 0 = 0xB2 ∨ vm.exe.code.getD vm.pc 0 = 0xB3) :
    pvm_op bts now vm = (.PVM_NO_ERROR, { vm with pc := (vm.pc + 1) % 2 ^ 16 }) := by
  rw [pvm_op_exec bts now vm ht hpc]
  rcases hop with hop | hop | hop | hop <;> rw [hop] <;> rfl

/-- Claim C9 (witness): one SKZ step on `exe_skz` from reset only moves the
pc to 1. -/
theorem skz_family_noop_witness :
    pvm_op [] 0 (pvm_init 0 exe_skz) =
      (.PVM_NO_ERROR, { pvm_init 0 exe_skz with pc := 1 }) :=
  skz_family_noop [] 0 (pvm_init 0 exe_skz) rfl (by decide) (Or.inl rfl)

/-- Claim C10 (failing input): from reset of the checked image `00 07 AB`
(PSH 0; PSH 7; DIV), two successful steps reach the DIV opcode with
`data_stack = [0, 7]`: its two pops succeed and the second popped value —
the divisor of the unguarded `value /= second` — is 0, so the C interpreter
divides by zero (undefined behaviour; the model's `pvm_div` yields 0
there). -/
theorem div_by_zero_reachable :
    pvm_exe_check exe_div 9 = .PVM_EXE_OK ∧
    (pvm_op [] 0 (pvm_init 0 exe_div)).1 = .PVM_NO_ERROR ∧
    (pvm_op [] 0 (pvm_op [] 0 (pvm_init 0 exe_div)).2).1 = .PVM_NO_ERROR ∧
    (pvm_run [] 0 (pvm_init 0 exe_div) 2).exe.code.getD
        (pvm_run [] 0 (pvm_init 0 exe_div) 2).pc 0 = 0xAB ∧
    (pvm_run [] 0 (pvm_init 0 exe_div) 2).data_top = 2 ∧
    (pvm_run [] 0 (pvm_init 0 exe_div) 2).data_stack
        ((pvm_run [] 0 (pvm_init 0 exe_div) 2).data_top - 2) = 0 ∧
    (pvm_run [] 0 (pvm_init 0 exe_div) 2).data_stack
        ((pvm_run [] 0 (pvm_init 0 exe_div) 2).data_top - 1) = 7 := by
  decide

/-- Claim C2 (counterexample): `PSH 5; PSH 7; SUB` pushes 2 = 7 - 5, the
first popped value minus the second popped value; the claim's `b OP a`
(second popped minus first popped) would give 5 - 7 = -2. -/
theorem sub_operand_order_counterexample :
    (pvm_run [] 0 (pvm_init 0 exe_sub) 3).data_stack 0 = 2 ∧
    (pvm_run [] 0 (pvm_init 0 exe_sub) 3).data_stack 0 ≠ 5 - 7 := by
  decide

/-- Claim C2 (amended): for the binary opcodes `A8..AC`, with `a` the value
popped first and `b` the value popped second, ADD, SUB, MUL and DIV push
`a OP b` (not `b OP a`) in two's-complement arithmetic, division truncating
toward zero (its divisor `b` assumed nonzero, the unguarded C division being
undefined otherwise), and PWR pushes `a` raised to the power `b` (not `b`
raised to `a`), the result being 1 whenever `b ≤ 0`. -/
theorem binary_arith_spec (bts : List pvm_builtin_f) (now : Nat) (vm : pvm_t)
    (ht : vm.timer = 0) (hpc : vm.pc < pvm_code_size vm.exe)
    (h2 : 2 ≤ vm.data_top) (h30 : vm.data_top ≤ 30) :
    (∀ r : Int, binary_result vm r =
       (.PVM_NO_ERROR,
        { vm with pc := (vm.pc + 1) % 2 ^ 16,
                  data_top := vm.data_top - 1,
                  data_stack := updStack vm.data_stack (vm.data_top - 2) r })) ∧
    (vm.exe.code.getD vm.pc 0 = 0xA8 →
       pvm_op bts now vm =
         binary_result vm (wrap32 (vm.data_stack (vm.data_top - 1) +
                                   vm.data_stack (vm.data_top - 2)))) ∧
    (vm.exe.code.getD vm.pc 0 = 0xA9 →
       pvm_op bts now vm =
         binary_result vm (wrap32 (vm.data_stack (vm.data_top - 1) -
                                   vm.data_stack (vm.data_top - 2)))) ∧
    (vm.exe.code.getD vm.pc 0 = 0xAA →
       pvm_op bts now vm =
         binary_result vm (wrap32 (vm.data_stack (vm.data_top - 1) *
                                   vm.data_stack (vm.data_top - 2)))) ∧
    (vm.exe.code.getD vm.pc 0 = 0xAB → vm.data_stack (vm.data_top - 2) ≠ 0 →
       pvm_op bts now vm =
         binary_result vm (pvm_div (vm.data_stack (vm.data_top - 1))
                                   (vm.data_stack (vm.data_top - 2))) ∧
       pvm_div (vm.data_stack (vm.data_top - 1)) (vm.data_stack (vm.data_top - 2)) =
         wrap32 (Int.tdiv (vm.data_stack (vm.data_top - 1))
                          (vm.data_stack (vm.data_top - 2)))) ∧
    (vm.exe.code.getD vm.pc 0 = 0xAC →
       pvm_op bts now vm =
         binary_result vm (pvm_pwr (vm.data_stack (vm.data_top - 1))
                                   (vm.data_stack (vm.data_top - 2))) ∧
       (vm.data_stack (vm.data_top - 2) ≤ 0 →
          pvm_pwr (vm.data_stack (vm.data_top - 1))
            (vm.data_stack (vm.data_top - 2)) = 1) ∧
       (1 ≤ vm.data_stack (vm.data_top - 2) →
        -2 ^ 31 ≤ vm.data_stack (vm.data_top - 1) →
        vm.data_stack (vm.data_top - 1) < 2 ^ 31 →
          pvm_pwr (vm.data_stack (vm.data_top - 1)) (vm.data_stack (vm.data_top - 2)) =
            wrap32 (vm.data_stack (vm.data_top - 1) ^
              (vm.data_stack (vm.data_top - 2)).toNat))) := by
  refine ⟨?_, ?_, ?_, ?_, ?_, ?_⟩
  · intro r
    unfold binary_result
    rw [push_eq _ _ (show vm.data_top - 1 - 1 < 30 by omega)]
    simp only []
    rw [show vm.data_top - 1 - 1 + 1 = vm.data_top - 1 from by omega,
        show vm.data_top - 1 - 1 = vm.data_top - 2 from by omega]
  · intro hop
    rw [pvm_op_exec bts now vm ht hpc, hop,
        dispatch_binary bts now 0xA8 _ (by decide) (by decide) (by decide) (by decide),
        pvm_binary_arith_eq 0xA8 { vm with pc := (vm.pc + 1) % 2 ^ 16 }
          (show vm.data_top ≠ 0 by omega)
          (show vm.data_top - 1 ≠ 0 by omega) (by decide)]
    with_unfolding_all rfl
  · intro hop
    rw [pvm_op_exec bts now vm ht hpc, hop,
        dispatch_binary bts now 0xA9 _ (by decide) (by decide) (by decide) (by decide),
        pvm_binary_arith_eq 0xA9 { vm with pc := (vm.pc + 1) % 2 ^ 16 }
          (show vm.data_top ≠ 0 by omega)
          (show vm.data_top - 1 ≠ 0 by omega) (by decide)]
    with_unfolding_all rfl
  · intro hop
    rw [pvm_op_exec bts now vm ht hpc, hop,
        dispatch_binary bts now 0xAA _ (by decide) (by decide) (by decide) (by decide),
        pvm_binary_arith_eq 0xAA { vm with pc := (vm.pc + 1) % 2 ^ 16 }
          (show vm.data_top ≠ 0 by omega)
          (show vm.data_top - 1 ≠ 0 by omega) (by decide)]
    with_unfolding_all rfl
  · intro hop hb
    refine ⟨?_, rfl⟩
    rw [pvm_op_exec bts now vm ht hpc, hop,
        dispatch_binary bts now 0xAB _ (by decide) (by decide) (by decide) (by decide),
        pvm_binary_arith_eq 0xAB { vm with pc := (vm.pc + 1) % 2 ^ 16 }
          (show vm.data_top ≠ 0 by omega)
          (show vm.data_top - 1 ≠ 0 by omega) (by decide)]
    with_unfolding_all rfl
  · intro hop
    refine ⟨?_, ?_, ?_⟩
    · rw [pvm_op_exec bts now vm ht hpc, hop,
          dispatch_binary bts now 0xAC _ (by decide) (by decide) (by decide) (by decide),
          pvm_binary_arith_eq 0xAC { vm with pc := (vm.pc + 1) % 2 ^ 16 }
            (show vm.data_top ≠ 0 by omega)
            (show vm.data_top - 1 ≠ 0 by omega) (by decide)]
      with_unfolding_all rfl
    · intro hb
      unfold pvm_pwr
      rw [if_pos hb]
    · intro hb ha1 ha2
      exact pvm_pwr_eq ha1 ha2 hb

/-- Claim C2 (witness): after `PSH 5; PSH 7` of `exe_add`, the ADD step
pushes `wrap32 (7 + 5) = 12`. -/
theorem binary_arith_spec_witness :
    (pvm_op [] 0 (pvm_run [] 0 (pvm_init 0 exe_add) 2)).2.data_stack 0 = 12 := by
  have h := binary_arith_spec [] 0 (pvm_run [] 0 (pvm_init 0 exe_add) 2)
    (by decide) (by decide) (by decide) (by decide)
  rw [h.2.1 (by decide)]
  decide

/-- Positions below the copy window are untouched by the RET copy loop. -/
theorem retCopy_fst_lower (s : Nat → Int) (dst src n : Nat) (i : Nat) :
    i < dst → dst + n < 256 → (retCopy s dst src n).1 i = s i := by
  induction n generalizing s dst src with
  | zero => intro _ _; rfl
  | succ n ih =>
    intro hi hdn
    show (retCopy (updStack s dst (s src)) ((dst + 1) % 256) ((src + 1) % 256) n).1 i
        = s i
    rw [Nat.mod_eq_of_lt (show dst + 1 < 256 by omega)]
    rw [ih (updStack s dst (s src)) (dst + 1) ((src + 1) % 256) (by omega) (by omega)]
    simp [updStack, Nat.ne_of_lt hi]

/-- The RET copy loop moves the source window down to `dst`: with
`dst ≤ src` (forward copy, no clobbering) and no index wrap, position
`dst + j` of the result holds the original `s (src + j)`. -/
theorem retCopy_fst_copy (s : Nat → Int) (dst src n : Nat) :
    dst ≤ src → src + n < 256 → ∀ j, j < n →
      (retCopy s dst src n).1 (dst + j) = s (src + j) := by
  induction n generalizing s dst src with
  | zero => intro _ _ j hj; exact absurd hj (Nat.not_lt_zero j)
  | succ n ih =>
    intro hds hsn j hj
    show (retCopy (updStack s dst (s src)) ((dst + 1) % 256) ((src + 1) % 256) n).1
        (dst + j) = s (src + j)
    rw [Nat.mod_eq_of_lt (show dst + 1 < 256 by omega),
        Nat.mod_eq_of_lt (show src + 1 < 256 by omega)]
    cases j with
    | zero =>
      simp only [Nat.add_zero]
      rw [retCopy_fst_lower (updStack s dst (s src)) (dst + 1) (src + 1) n dst
            (by omega) (by omega)]
      simp [updStack]
    | succ j =>
      have h1 : dst + (j + 1) = (dst + 1) + j := by omega
      have h2 : src + (j + 1) = (src + 1) + j := by omega
      rw [h1, h2,
          ih (updStack s dst (s src)) (dst + 1) (src + 1) (by omega) (by omega) j
            (by omega)]
      simp [updStack, show src + 1 + j ≠ dst from by omega]

theorem dispatch_ret (bts : List pvm_builtin_f) (now : Nat) (vm : pvm_t) :
    pvm_dispatch bts now 0xB5 vm = pvm_ret vm := by
  with_unfolding_all rfl

/-- RET through `pvm_ret` directly: main-frame RET is the terminal
`PVM_MAIN_RETURN`; a successful RET from a frame pops it, copies the
return values down to the frame's locals window, sets
`data_top = variables_start + returns_count` and jumps to the stored
return address. -/
theorem pvm_ret_spec (vm : pvm_t) (hinv : pvm_inv vm) :
    (vm.call_top = 0 → pvm_ret vm = (.PVM_MAIN_RETURN, vm)) ∧
    (vm.call_top ≠ 0 → (pvm_ret vm).1 = .PVM_NO_ERROR →
      (pvm_ret vm).2.call_top = vm.call_top - 1 ∧
      (pvm_ret vm).2.data_top =
        (vm.call_stack (vm.call_top - 1)).variables_start +
        (vm.exe.functions.getD (vm.call_stack (vm.call_top - 1)).function_index
          default).returns_count ∧
      (pvm_ret vm).2.pc = (vm.call_stack (vm.call_top - 1)).return_address ∧
      ∀ j, j < (vm.exe.functions.getD (vm.call_stack (vm.call_top - 1)).function_index
          default).returns_count →
        (pvm_ret vm).2.data_stack
            ((vm.call_stack (vm.call_top - 1)).variables_start + j) =
          vm.data_stack (vm.data_top -
            (vm.exe.functions.getD (vm.call_stack (vm.call_top - 1)).function_index
              default).returns_count + j)) := by
  obtain ⟨hdt, hct, hfr⟩ := hinv
  constructor
  · intro h0
    have hf : pvm_current_function vm = -1 := by
      unfold pvm_current_function
      rw [if_neg (by simp [h0])]
    simp only [pvm_ret, hf]
    rw [if_pos (Or.inl (by decide))]
  · intro hct0 hok
    obtain ⟨hvs, hvars, hrets⟩ := hfr (vm.call_top - 1) (by omega)
    unfold PVM_DATA_STACK_SIZE at hdt hvs hvars hrets
    unfold PVM_CALL_STACK_SIZE at hct
    simp only [pvm_ret] at hok ⊢
    rw [current_function_eq vm hct0 hct] at hok ⊢
    by_cases hrange :
        ((vm.call_stack (vm.call_top - 1)).function_index : Int) ≥
          (vm.exe.functions.length : Int)
    · rw [if_pos (Or.inr hrange)] at hok
      simp at hok
    · have hnr : ¬(((vm.call_stack (vm.call_top - 1)).function_index : Int) < 0 ∨
          ((vm.call_stack (vm.call_top - 1)).function_index : Int) ≥
            (vm.exe.functions.length : Int)) := by
        rintro (hh | hh)
        · omega
        · exact hrange hh
      rw [if_neg hnr] at hok ⊢
      rw [current_variables_start_eq vm hct0] at hok ⊢
      simp only [Int.toNat_natCast] at hok ⊢
      by_cases hsm :
          (vm.call_stack (vm.call_top - 1)).variables_start +
            (vm.call_stack (vm.call_top - 1)).arguments_count +
            (vm.exe.functions.getD (vm.call_stack (vm.call_top - 1)).function_index
              default).variables_count ≠
          (((vm.data_top : Int) -
             ((vm.exe.functions.getD
                (vm.call_stack (vm.call_top - 1)).function_index
                default).returns_count : Int)) % 256).toNat
      · rw [if_pos hsm] at hok
        simp at hok
      · rw [if_neg hsm] at hok ⊢
        rw [ne_eq, not_not] at hsm
        have hrs :
            (((vm.data_top : Int) -
               ((vm.exe.functions.getD
                  (vm.call_stack (vm.call_top - 1)).function_index
                  default).returns_count : Int)) % 256).toNat =
              vm.data_top -
                (vm.exe.functions.getD
                  (vm.call_stack (vm.call_top - 1)).function_index
                  default).returns_count := by
          omega
        rw [hrs]
        refine ⟨rfl, ?_, rfl, ?_⟩
        · rw [retCopy_snd _ _ _ _ (by omega)]
        · intro j hj
          exact retCopy_fst_copy vm.data_stack
            (vm.call_stack (vm.call_top - 1)).variables_start
            (vm.data_top -
              (vm.exe.functions.getD (vm.call_stack (vm.call_top - 1)).function_index
                default).returns_count)
            (vm.exe.functions.getD (vm.call_stack (vm.call_top - 1)).function_index
              default).returns_count
            (by omega) (by omega) j hj

theorem dispatch_cal (bts : List pvm_builtin_f) (now : Nat) (p : Nat) (hp : p < 15)
    (vm : pvm_t) :
    pvm_dispatch bts now (0xD0 + p) vm = pvm_cal bts vm (p : Int) := by
  interval_cases p <;> with_unfolding_all rfl

theorem pvm_cal_built_in (bts : List pvm_builtin_f) (vm : pvm_t) (p : Nat)
    (hlen : p < vm.exe.functions.length)
    (hbi : (vm.exe.functions.getD p default).is_built_in = true)
    (hnv : (vm.exe.functions.getD p default).is_variadic = false) :
    (PVM_CALL_STACK_SIZE ≤ vm.call_top →
       pvm_cal bts vm (p : Int) = (.PVM_CALL_STACK_OVERFLOW, vm)) ∧
    (vm.call_top < PVM_CALL_STACK_SIZE →
     (pvm_cal bts vm (p : Int)).1 = .PVM_NO_ERROR →
       (pvm_cal bts vm (p : Int)).2.call_top = vm.call_top ∧
       (pvm_cal bts vm (p : Int)).2.call_stack = vm.call_stack ∧
       (pvm_cal bts vm (p : Int)).2.pc = vm.pc ∧
       (pvm_cal bts vm (p : Int)).2.data_top =
         (vm.data_top - (vm.exe.functions.getD p default).arguments_count +
          (vm.exe.functions.getD p default).returns_count) % 256) := by
  have hno : ¬((p : Int) < 0 ∨ (p : Int) ≥ (vm.exe.functions.length : Int)) := by
    rintro (hh | hh) <;> omega
  have hca : cal_args vm (vm.exe.functions.getD ((p : Int)).toNat default) =
      (.PVM_NO_ERROR, vm,
       (vm.exe.functions.getD ((p : Int)).toNat default).arguments_count) := by
    unfold cal_args
    rw [if_neg (by simp only [Int.toNat_natCast, hnv]; decide)]
  constructor
  · intro hct
    unfold pvm_cal
    rw [if_neg hno, if_pos hct]
  · intro hct hok
    unfold pvm_cal at hok ⊢
    rw [if_neg hno, if_neg (by omega)] at hok ⊢
    simp only [hca] at hok ⊢
    simp only [Int.toNat_natCast] at hok ⊢
    by_cases harg : vm.data_top < (vm.exe.functions.getD p default).arguments_count
    · rw [if_pos harg] at hok
      simp at hok
    · rw [if_neg harg] at hok ⊢
      by_cases hv2 : (((PVM_DATA_STACK_SIZE : Int) - (vm.data_top : Int)) % 256).toNat <
          (vm.exe.functions.getD p default).variables_count
      · rw [if_pos hv2] at hok
        simp at hok
      · rw [if_neg hv2] at hok ⊢
        by_cases hv3 : (((PVM_DATA_STACK_SIZE : Int) - (vm.data_top : Int)) % 256).toNat <
            (vm.exe.functions.getD p default).returns_count
        · rw [if_pos hv3] at hok
          simp at hok
        · rw [if_neg hv3] at hok ⊢
          rw [if_pos hbi] at hok ⊢
          by_cases ha : (vm.exe.functions.getD p default).address ≥ bts.length
          · rw [if_pos ha] at hok
            simp at hok
          · rw [if_neg ha] at hok ⊢
            exact ⟨rfl, rfl, rfl, rfl⟩

/-- Claim C4 (counterexample): a CAL resolving the built-in `fn_bi0` fails
with `PVM_CALL_STACK_OVERFLOW` when the call stack is full — the capacity
check precedes the built-in test (src/pvm.c:242 before src/pvm.c:263). -/
theorem cal_built_in_overflow_counterexample :
    (vm_cal_full.exe.functions.getD 0 default).is_built_in = true ∧
    vm_cal_full.call_top = 10 ∧
    (pvm_op [builtin_id] 0 vm_cal_full).1 = .PVM_CALL_STACK_OVERFLOW := by
  decide

/-- Claim C4 (amended): the call-stack capacity check applies to EVERY CAL,
built-in targets included: with `call_top ≥ CALL_STACK_CAP` the step fails
with `PVM_CALL_STACK_OVERFLOW` even when the resolved descriptor has
`is_built_in = 1`.  When `call_top < CALL_STACK_CAP` and a (non-variadic)
built-in call succeeds, it pushes no call frame, leaves the pc at the byte
after the CAL opcode, and sets `data_top = call_stack_start + returns_count`
(i.e. `data_top - arguments_count + returns_count`, reduced mod 256 as a
`uint8_t`). -/
theorem cal_built_in_spec (bts : List pvm_builtin_f) (now : Nat) (vm : pvm_t)
    (p : Nat) (hp : p < 15)
    (ht : vm.timer = 0) (hpc : vm.pc < pvm_code_size vm.exe)
    (hop : vm.exe.code.getD vm.pc 0 = 0xD0 + p)
    (hlen : p < vm.exe.functions.length)
    (hbi : (vm.exe.functions.getD p default).is_built_in = true)
    (hnv : (vm.exe.functions.getD p default).is_variadic = false) :
    (PVM_CALL_STACK_SIZE ≤ vm.call_top →
       (pvm_op bts now vm).1 = .PVM_CALL_STACK_OVERFLOW) ∧
    (vm.call_top < PVM_CALL_STACK_SIZE →
     (pvm_op bts now vm).1 = .PVM_NO_ERROR →
       (pvm_op bts now vm).2.call_top = vm.call_top ∧
       (pvm_op bts now vm).2.call_stack = vm.call_stack ∧
       (pvm_op bts now vm).2.pc = (vm.pc + 1) % 2 ^ 16 ∧
       (pvm_op bts now vm).2.data_top =
         (vm.data_top - (vm.exe.functions.getD p default).arguments_count +
          (vm.exe.functions.getD p default).returns_count) % 256) := by
  rw [pvm_op_exec bts now vm ht hpc, hop,
      dispatch_cal bts now p hp { vm with pc := (vm.pc + 1) % 2 ^ 16 }]
  have h := pvm_cal_built_in bts { vm with pc := (vm.pc + 1) % 2 ^ 16 } p hlen hbi hnv
  constructor
  · intro hct
    rw [h.1 hct]
  · intro hct hok
    exact h.2 hct hok

/-- Claim C4 (witness): the CAL 0 of `exe_cal_bi2` with one frame slot free
invokes the built-in without pushing a frame; `data_top` ends at
`call_stack_start + returns_count = 1` and the pc at the byte after CAL. -/
theorem cal_built_in_spec_witness :
    (pvm_op [builtin_id] 0 cal_bi_state).2.call_top = cal_bi_state.call_top ∧
    (pvm_op [builtin_id] 0 cal_bi_state).2.call_stack = cal_bi_state.call_stack ∧
    (pvm_op [builtin_id] 0 cal_bi_state).2.pc = (cal_bi_state.pc + 1) % 2 ^ 16 ∧
    (pvm_op [builtin_id] 0 cal_bi_state).2.data_top =
      (cal_bi_state.data_top -
        (cal_bi_state.exe.functions.getD 0 default).arguments_count +
       (cal_bi_state.exe.functions.getD 0 default).returns_count) % 256 :=
  (cal_built_in_spec [builtin_id] 0 cal_bi_state 0 (by decide) (by decide)
      (by decide) (by decide) (by decide) (by decide) (by decide)).2
    (by decide) (by decide)

/-- Claim C7: a RET with `call_top = 0` (or, more generally, no valid current
function) yields the terminal `PVM_MAIN_RETURN`; a RET from a frame that
returns `PVM_NO_ERROR` pops the top call frame, copies the `returns_count`
topmost values down to `data_stack[variables_start ..]`, sets
`data_top = variables_start + returns_count` and `pc = return_address` of the
popped frame.  The invariant hypothesis holds in every reachable state. -/
theorem ret_spec (bts : List pvm_builtin_f) (now : Nat) (vm : pvm_t)
    (hinv : pvm_inv vm)
    (ht : vm.timer = 0) (hpc : vm.pc < pvm_code_size vm.exe)
    (hop : vm.exe.code.getD vm.pc 0 = 0xB5) :
    (vm.call_top = 0 →
       pvm_op bts now vm =
         (.PVM_MAIN_RETURN, { vm with pc := (vm.pc + 1) % 2 ^ 16 })) ∧
    (vm.call_top ≠ 0 → (pvm_op bts now vm).1 = .PVM_NO_ERROR →
      (pvm_op bts now vm).2.call_top = vm.call_top - 1 ∧
      (pvm_op bts now vm).2.data_top =
        (vm.call_stack (vm.call_top - 1)).variables_start +
        (vm.exe.functions.getD (vm.call_stack (vm.call_top - 1)).function_index
          default).returns_count ∧
      (pvm_op bts now vm).2.pc = (vm.call_stack (vm.call_top - 1)).return_address ∧
      ∀ j, j < (vm.exe.functions.getD (vm.call_stack (vm.call_top - 1)).function_index
          default).returns_count →
        (pvm_op bts now vm).2.data_stack
            ((vm.call_stack (vm.call_top - 1)).variables_start + j) =
          vm.data_stack (vm.data_top -
            (vm.exe.functions.getD (vm.call_stack (vm.call_top - 1)).function_index
              default).returns_count + j)) := by
  rw [pvm_op_exec bts now vm ht hpc, hop, dispatch_ret bts now]
  have h := pvm_ret_spec { vm with pc := (vm.pc + 1) % 2 ^ 16 } hinv
  exact ⟨fun h0 => h.1 h0, fun hct0 hok => h.2 hct0 hok⟩

/-- Claim C7 (witness): the RET of `exe_ret` from the single frame of
`vm_ret` pops it, lands data_top at `variables_start + returns_count = 0`
and the pc at the stored return address 7. -/
theorem ret_spec_witness :
    (pvm_op [] 0 vm_ret).2.call_top = vm_ret.call_top - 1 ∧
    (pvm_op [] 0 vm_ret).2.data_top =
      (vm_ret.call_stack (vm_ret.call_top - 1)).variables_start +
      (vm_ret.exe.functions.getD
        (vm_ret.call_stack (vm_ret.call_top - 1)).function_index
        default).returns_count ∧
    (pvm_op [] 0 vm_ret).2.pc =
      (vm_ret.call_stack (vm_ret.call_top - 1)).return_address ∧
    ∀ j, j < (vm_ret.exe.functions.getD
        (vm_ret.call_stack (vm_ret.call_top - 1)).function_index
        default).returns_count →
      (pvm_op [] 0 vm_ret).2.data_stack
          ((vm_ret.call_stack (vm_ret.call_top - 1)).variables_start + j) =
        vm_ret.data_stack (vm_ret.data_top -
          (vm_ret.exe.functions.getD
            (vm_ret.call_stack (vm_ret.call_top - 1)).function_index
            default).returns_count + j) :=
  (ret_spec [] 0 vm_ret (by decide) (by decide) (by decide) (by decide)).2
    (by decide) (by decide)

end Pvm
